import Mathlib

/-!
Verification of the zilarte-threading static file server (src/serve.py)
against its natural-language specification.

The development shallowly embeds the Python program:
* the operating system's socket layer is a small explicit state (`OS`),
* `find_free_port` and `main` are translated from src/serve.py,
* socket-level effects are made observable as explicit event traces,
* the standard-library request handler (SimpleHTTPRequestHandler), which is
  not part of the repository sources, is modelled from the specification.
-/

/-- Exceptions relevant to the program.  Python's `socket.bind` raises
`OSError` when the address is in use (or ephemeral ports are exhausted) and
`OverflowError` when the port value is outside 0..65535; `find_free_port`
catches only `OSError`.  `other` stands for any further exception class
(for example one escaping `serve_forever`). -/
inductive PyExc where
  | osError
  | overflowError
  | other (name : String)
deriving DecidableEq, Repr

/-- State of the operating system's socket layer as seen by one process:
which ports are currently bound by someone, and which ephemeral port (if
any) the OS would hand out for a bind request on port 0. -/
structure OS where
  bound : Nat → Bool
  ephemeralAvail : Option Nat

/-- Semantics of `socket.bind(("127.0.0.1", port))` followed by
`getsockname()[1]`: a port above 65535 raises `OverflowError`; port 0 asks
the OS for an ephemeral port (raising `OSError` when none is available);
any other port binds iff it is currently free, raising `OSError` when it is
in use.  Returns the port actually bound. -/
def osBind (os : OS) (port : Nat) : Except PyExc Nat :=
  if 65535 < port then .error .overflowError
  else if port = 0 then
    match os.ephemeralAvail with
    | some q => .ok q
    | none => .error .osError
  else if os.bound port then .error .osError
  else .ok port

/-- Translation of `find_free_port` from src/serve.py: try to bind the
preferred port and return `preferred` on success; on `OSError` (and only
`OSError`) fall back to binding port 0 and return the port the OS assigned;
any other exception propagates. -/
def find_free_port (os : OS) (preferred : Nat) : Except PyExc Nat :=
  match osBind os preferred with
  | .ok _ => .ok preferred
  | .error .osError =>
    match osBind os 0 with
    | .ok q => .ok q
    | .error e => .error e
  | .error e => .error e

/-- Lifecycle events of the probe socket used by `find_free_port`. -/
inductive SockEvent where
  | opened
  | bind (port : Nat)
  | closed
deriving DecidableEq, Repr

/-- `find_free_port` with its socket effects made observable: the socket is
opened, each `bind` call is recorded whether it succeeds or raises, and
`contextlib.closing` closes the socket on every path, including when an
exception propagates.  The first component agrees with `find_free_port`. -/
def find_free_port_events (os : OS) (preferred : Nat) :
    Except PyExc Nat × List SockEvent :=
  match osBind os preferred with
  | .ok _ => (.ok preferred, [.opened, .bind preferred, .closed])
  | .error .osError =>
    match osBind os 0 with
    | .ok q => (.ok q, [.opened, .bind preferred, .bind 0, .closed])
    | .error e => (.error e, [.opened, .bind preferred, .bind 0, .closed])
  | .error e => (.error e, [.opened, .bind preferred, .closed])

/-- The traced version computes the same result as `find_free_port`. -/
theorem find_free_port_events_fst (os : OS) (preferred : Nat) :
    (find_free_port_events os preferred).1 = find_free_port os preferred := by
  unfold find_free_port_events find_free_port
  cases h : osBind os preferred with
  | ok a => rfl
  | error e =>
    cases e with
    | osError =>
      cases h0 : osBind os 0 with
      | ok q => rfl
      | error e0 => rfl
    | overflowError => rfl
    | other s => rfl

/-- A filesystem, mapping a path (list of components) to the content of the
regular file stored there, if any. -/
def FS : Type := List String → Option String

/-- An HTTP response, reduced to the status code and body. -/
structure Response where
  status : Nat
  body : String
deriving DecidableEq, Repr

/-- Modelled from the spec: the repository delegates request handling to the
standard library's SimpleHTTPRequestHandler, whose code is not under src/.
Per the specification, the handler translates the URL path into a filesystem
path strictly confined beneath the configured root directory, and request
paths containing traversal sequences (a `..` component) are rejected.
Empty and `.` components are dropped; all remaining components are appended
beneath the root. -/
def translate_path (root : List String) (req : List String) : Option (List String) :=
  if req.contains ".." then none
  else some (root ++ req.filter (fun c => !(c == "") && !(c == ".")))

/-- Modelled from the spec: request handling by the standard-library handler
(not under src/).  A path rejected by `translate_path` gets a 403-class
response; a resolved path that does not exist gets 404; a resolved regular
file is returned with status 200 and its content as the body. -/
def handle (fs : FS) (root : List String) (req : List String) : Response :=
  match translate_path root req with
  | none => { status := 403, body := "" }
  | some p =>
    match fs p with
    | some content => { status := 200, body := content }
    | none => { status := 404, body := "" }

/-- Observable events of `main`: lines printed to stderr and stdout, the
probe socket's lifecycle inside `find_free_port`, and the HTTP server
socket being bound (listening) and closed. -/
inductive MainEvent where
  | printErr (msg : String)
  | printOut (msg : String)
  | probeOpen
  | probeBind (port : Nat)
  | probeClose
  | serverBind (port : Nat)
  | serverClose
deriving DecidableEq, Repr

/-- View of the probe socket's events as events of `main`. -/
def sockEventToMain : SockEvent → MainEvent
  | .opened => .probeOpen
  | .bind p => .probeBind p
  | .closed => .probeClose

/-- How the blocking `serve_forever` call ends: a KeyboardInterrupt
(Ctrl+C), or some other exception escaping it. -/
inductive ServeEnd where
  | interrupt
  | exc (e : PyExc)
deriving DecidableEq, Repr

/-- Environment `main` runs in: which absolute paths are directories,
how relative paths resolve to absolute ones (`os.path.abspath`), and the
socket layer. -/
structure World where
  isDir : String → Bool
  abspath : String → String
  os : OS

/-- Outcome of one run of `main`: the event trace, the process exit
(`Except.ok code` for a normal exit with that status, `Except.error e` for
an uncaught exception, which makes the interpreter exit non-zero), the port
printed in the serving URL, and the port the HTTP server socket actually
bound, when those points were reached. -/
structure MainResult where
  events : List MainEvent
  exit : Except PyExc Nat
  announcedPort : Option Nat
  serverBoundPort : Option Nat

/-- Translation of the function `main` from src/serve.py (named `serve_main` here because Lean reserves the name `main` for executables), for a parsed command line
`--dir dirArg --port portArg`.  The serve directory is resolved with
`abspath` and checked with `isdir`; on failure one error line is printed
and the process exits with status 1.  Otherwise `find_free_port` picks the
port, `ThreadingHTTPServer` binds it (a bind on port 0 gets an ephemeral
port from the OS), the URL is announced with the port returned by
`find_free_port`, and `serve_forever` runs until `se` ends it; the
`finally` block closes the server socket on every path, and only
KeyboardInterrupt is caught (printing a shutdown message, then returning
normally, exit status 0). -/
def serve_main (w : World) (dirArg : String) (portArg : Nat) (se : ServeEnd) : MainResult :=
  if w.isDir (w.abspath dirArg) = false then
    { events := [.printErr ("Error: directory not found: " ++ w.abspath dirArg)]
      exit := .ok 1
      announcedPort := none
      serverBoundPort := none }
  else
    match find_free_port_events w.os portArg with
    | (.error e, evs) =>
      { events := evs.map sockEventToMain
        exit := .error e
        announcedPort := none
        serverBoundPort := none }
    | (.ok port, evs) =>
      match osBind w.os port with
      | .error e =>
        { events := evs.map sockEventToMain
          exit := .error e
          announcedPort := none
          serverBoundPort := none }
      | .ok sport =>
        { events := evs.map sockEventToMain ++
            [.serverBind sport,
             .printOut ("Serving \x27" ++ w.abspath dirArg ++ "\x27 at http://127.0.0.1:"
               ++ toString port),
             .printOut "Press Ctrl+C to stop."] ++
            (match se with
             | .interrupt => [.printOut "\nShutting down...", .serverClose]
             | .exc _ => [.serverClose])
          exit := match se with
             | .interrupt => .ok 0
             | .exc e => .error e
          announcedPort := some port
          serverBoundPort := some sport }

/-- Claim C2: a currently free preferred port (a valid nonzero port that is
unbound) is bound successfully and returned exactly; a preferred port
already in use makes `find_free_port` return the OS-assigned ephemeral
port, which is currently unbound and necessarily different from the
preferred one. -/
theorem find_free_port_correct (os : OS) (a q : Nat)
    (ha0 : 0 < a) (ha : a < 65536) :
    (os.bound a = false → find_free_port os a = .ok a) ∧
    (os.bound a = true → os.ephemeralAvail = some q → os.bound q = false →
      find_free_port os a = .ok q ∧ q ≠ a) := by
  have hno : ¬ 65535 < a := by omega
  have hne : ¬ a = 0 := by omega
  constructor
  · intro hfree
    unfold find_free_port osBind
    simp [hno, hne, hfree]
  · intro hused hq hqf
    refine ⟨?_, ?_⟩
    · unfold find_free_port osBind
      simp [hno, hne, hused, hq, Nat.not_lt_zero]
    · intro hc
      rw [hc, hused] at hqf
      exact Bool.noConfusion hqf

/-- Witness for C2: port 8000 free is returned as is; port 8000 in use
falls back to the available ephemeral port 49152. -/
theorem find_free_port_correct_witness :
    find_free_port ⟨fun _ => false, some 49152⟩ 8000 = .ok 8000 ∧
    (find_free_port ⟨fun p => p == 8000, some 49152⟩ 8000 = .ok 49152 ∧
      (49152 : Nat) ≠ 8000) :=
  ⟨(find_free_port_correct ⟨fun _ => false, some 49152⟩ 8000 49152
      (by decide) (by decide)).1 rfl,
   (find_free_port_correct ⟨fun p => p == 8000, some 49152⟩ 8000 49152
      (by decide) (by decide)).2 rfl rfl rfl⟩

/-- Claim C3 counterexample: with every port free and an ephemeral port
available, preferred port 70000 makes the initial bind fail (the port
value is invalid), yet `find_free_port` does not fall back to port 0: the
`OverflowError` is not an `OSError`, so it propagates and the call raises
instead of returning the available OS-assigned port. -/
theorem find_free_port_invalid_port_raises :
    osBind ⟨fun _ => false, some 49152⟩ 70000 = .error .overflowError ∧
    find_free_port ⟨fun _ => false, some 49152⟩ 70000 = .error .overflowError :=
  ⟨rfl, rfl⟩

/-- Claim C3 (amended): for every preferred port whose initial bind fails
with an `OSError` (for example, address in use), `find_free_port` falls
back to binding port 0 and returns the OS-assigned ephemeral port rather
than raising; an initial bind failure that is not an `OSError` (an
out-of-range port value raises `OverflowError`) propagates instead. -/
theorem find_free_port_oserror_falls_back (os : OS) (a q : Nat)
    (h : osBind os a = .error .osError) (hq : os.ephemeralAvail = some q) :
    find_free_port os a = .ok q := by
  unfold find_free_port
  rw [h]
  unfold osBind
  simp [hq, Nat.not_lt_zero]

/-- Witness for the amended C3: port 8000 in use, ephemeral port 49152
available. -/
theorem find_free_port_oserror_falls_back_witness :
    find_free_port ⟨fun p => p == 8000, some 49152⟩ 8000 = .ok 49152 :=
  find_free_port_oserror_falls_back ⟨fun p => p == 8000, some 49152⟩ 8000 49152 rfl rfl

/-- Claim C6: when the fallback bind on port 0 also fails, the error
propagates to the caller, and the trace shows exactly one bind attempt on
the preferred port followed by exactly one fallback bind attempt on port 0
before the socket is closed: no retry, no loop. -/
theorem find_free_port_fallback_failure_propagates (os : OS) (a : Nat) (e : PyExc)
    (h1 : osBind os a = .error .osError) (h2 : osBind os 0 = .error e) :
    find_free_port os a = .error e ∧
    (find_free_port_events os a).2 = [.opened, .bind a, .bind 0, .closed] := by
  constructor
  · unfold find_free_port
    rw [h1, h2]
  · unfold find_free_port_events
    rw [h1, h2]

/-- Witness for C6: every port in use and no ephemeral port available. -/
theorem find_free_port_fallback_failure_witness :
    find_free_port ⟨fun _ => true, none⟩ 8000 = .error .osError ∧
    (find_free_port_events ⟨fun _ => true, none⟩ 8000).2
      = [.opened, .bind 8000, .bind 0, .closed] :=
  find_free_port_fallback_failure_propagates ⟨fun _ => true, none⟩ 8000 .osError rfl rfl

/-- Claim C7: on every path of `find_free_port` — success, fallback, and
propagating failure alike — the probe socket is opened first and closed
last, and closed exactly once, so the function holds no socket resource
after it returns. -/
theorem find_free_port_socket_closed (os : OS) (a : Nat) :
    (find_free_port_events os a).2.head? = some .opened ∧
    (find_free_port_events os a).2.getLast? = some .closed ∧
    (find_free_port_events os a).2.count .closed = 1 := by
  unfold find_free_port_events
  cases osBind os a with
  | ok x => exact ⟨rfl, rfl, rfl⟩
  | error e =>
    cases e with
    | osError =>
      cases osBind os 0 with
      | ok q => exact ⟨rfl, rfl, rfl⟩
      | error e0 => exact ⟨rfl, rfl, rfl⟩
    | overflowError => exact ⟨rfl, rfl, rfl⟩
    | other s => exact ⟨rfl, rfl, rfl⟩

/-- Claim C1: a request path containing a parent-directory traversal
component is answered with a non-200 status and an empty body, so the
response carries the content of no file at all — in particular no content
from outside the configured root. -/
theorem traversal_rejected (fs : FS) (root req : List String)
    (h : req.contains ".." = true) :
    (handle fs root req).status ≠ 200 ∧ (handle fs root req).body = "" := by
  have ht : translate_path root req = none := by
    unfold translate_path
    rw [if_pos h]
  have hh : handle fs root req = { status := 403, body := "" } := by
    unfold handle
    rw [ht]
  rw [hh]
  exact ⟨by decide, rfl⟩

/-- Witness for C1: a request for ../etc/passwd against root srv. -/
theorem traversal_rejected_witness :
    (handle (fun _ => none) ["srv"] ["..", "etc", "passwd"]).status ≠ 200 ∧
    (handle (fun _ => none) ["srv"] ["..", "etc", "passwd"]).body = "" :=
  traversal_rejected (fun _ => none) ["srv"] ["..", "etc", "passwd"] rfl

/-- Claim C8: a request whose path resolves beneath the root to a
filesystem path at which no file exists is answered with status 404. -/
theorem missing_file_404 (fs : FS) (root req p : List String)
    (h1 : translate_path root req = some p) (h2 : fs p = none) :
    (handle fs root req).status = 404 := by
  have hh : handle fs root req = { status := 404, body := "" } := by
    unfold handle
    rw [h1]
    show (match fs p with
      | some content => ({ status := 200, body := content } : Response)
      | none => { status := 404, body := "" }) = { status := 404, body := "" }
    rw [h2]
  rw [hh]

/-- Witness for C8: a request for /missing.txt against an empty root. -/
theorem missing_file_404_witness :
    (handle (fun _ => none) ["srv"] ["missing.txt"]).status = 404 :=
  missing_file_404 (fun _ => none) ["srv"] ["missing.txt"] ["srv", "missing.txt"] rfl rfl

/-- Inversion for a successful `osBind`: the port was in range, and either
it was the ephemeral request (port 0) answered by the OS, or a nonzero
free port bound as requested. -/
theorem osBind_ok_inv (os : OS) (q x : Nat) (h : osBind os q = .ok x) :
    q ≤ 65535 ∧
      ((q = 0 ∧ os.ephemeralAvail = some x) ∨
        (q ≠ 0 ∧ x = q ∧ os.bound q = false)) := by
  unfold osBind at h
  by_cases h1 : 65535 < q
  · rw [if_pos h1] at h
    exact absurd h (by simp)
  · rw [if_neg h1] at h
    refine ⟨by omega, ?_⟩
    by_cases h2 : q = 0
    · rw [if_pos h2] at h
      left
      refine ⟨h2, ?_⟩
      cases hq : os.ephemeralAvail with
      | some r =>
        simp only [hq, Except.ok.injEq] at h
        rw [h]
      | none =>
        simp only [hq] at h
        exact Except.noConfusion h
    · rw [if_neg h2] at h
      right
      by_cases h3 : os.bound q
      · rw [if_pos h3] at h
        exact absurd h (by simp)
      · rw [if_neg h3] at h
        simp only [Except.ok.injEq] at h
        exact ⟨h2, h.symm, by simpa using h3⟩

/-- Inversion for a successful `find_free_port_events`: either the
preferred port bound and is returned as is, or the initial bind raised
`OSError` and the fallback bind on port 0 supplied the returned port. -/
theorem find_free_port_events_ok_inv (os : OS) (a port : Nat) (evs : List SockEvent)
    (h : find_free_port_events os a = (Except.ok port, evs)) :
    (port = a ∧ ∃ x, osBind os a = .ok x) ∨ osBind os 0 = .ok port := by
  unfold find_free_port_events at h
  cases hb : osBind os a with
  | ok x =>
    simp only [hb, Prod.mk.injEq, Except.ok.injEq] at h
    exact Or.inl ⟨h.1.symm, x, rfl⟩
  | error e =>
    cases e with
    | osError =>
      simp only [hb] at h
      cases hb0 : osBind os 0 with
      | ok q =>
        simp only [hb0, Prod.mk.injEq, Except.ok.injEq] at h
        exact Or.inr (congrArg Except.ok h.1)
      | error e0 =>
        simp only [hb0, Prod.mk.injEq] at h
        exact Except.noConfusion h.1
    | overflowError =>
      simp only [hb, Prod.mk.injEq] at h
      exact Except.noConfusion h.1
    | other s =>
      simp only [hb, Prod.mk.injEq] at h
      exact Except.noConfusion h.1

/-- Shape of one run of `serve_main`: either startup stopped before the
server socket was bound (nothing announced, no server port), or the full
serving branch ran: `find_free_port` succeeded, the server socket bound a
port, the URL was announced with the selected port, and the very last
event is the closing of the server socket. -/
theorem serve_main_shape (w : World) (d : String) (a : Nat) (se : ServeEnd) :
    ((serve_main w d a se).announcedPort = none ∧
      (serve_main w d a se).serverBoundPort = none) ∨
    (∃ port sport evs,
      find_free_port_events w.os a = (Except.ok port, evs) ∧
      osBind w.os port = Except.ok sport ∧
      (serve_main w d a se).announcedPort = some port ∧
      (serve_main w d a se).serverBoundPort = some sport ∧
      (serve_main w d a se).events.getLast? = some MainEvent.serverClose) := by
  unfold serve_main
  split
  · exact Or.inl ⟨rfl, rfl⟩
  · split
    next e evs heq => exact Or.inl ⟨rfl, rfl⟩
    next port evs heq =>
      cases hb : osBind w.os port with
      | error e => exact Or.inl ⟨rfl, rfl⟩
      | ok sport =>
        refine Or.inr ⟨port, sport, evs, heq, hb, rfl, rfl, ?_⟩
        cases se with
        | interrupt =>
          show (evs.map sockEventToMain ++
              [MainEvent.serverBind sport,
               MainEvent.printOut ("Serving \x27" ++ w.abspath d
                 ++ "\x27 at http://127.0.0.1:" ++ toString port),
               MainEvent.printOut "Press Ctrl+C to stop."] ++
              [MainEvent.printOut "\nShutting down...",
               MainEvent.serverClose]).getLast? = some MainEvent.serverClose
          rw [List.getLast?_append_cons]
          rfl
        | exc e =>
          show (evs.map sockEventToMain ++
              [MainEvent.serverBind sport,
               MainEvent.printOut ("Serving \x27" ++ w.abspath d
                 ++ "\x27 at http://127.0.0.1:" ++ toString port),
               MainEvent.printOut "Press Ctrl+C to stop."] ++
              [MainEvent.serverClose]).getLast? = some MainEvent.serverClose
          rw [List.getLast?_append_cons]
          rfl

/-- Claim C4: when the resolved --dir path is not a directory, `main`
prints exactly one error line, which names the resolved path, to standard
error and exits with status 1; the trace holds no probe bind and no server
bind, so the failure precedes any port probing or socket binding and no
server starts. -/
theorem bad_dir_exits_before_bind (w : World) (d : String) (a : Nat) (se : ServeEnd)
    (h : w.isDir (w.abspath d) = false) :
    (serve_main w d a se).exit = .ok 1 ∧
    (serve_main w d a se).events
      = [.printErr ("Error: directory not found: " ++ w.abspath d)] ∧
    (∀ p, MainEvent.probeBind p ∉ (serve_main w d a se).events ∧
      MainEvent.serverBind p ∉ (serve_main w d a se).events) := by
  have hm : serve_main w d a se =
      { events := [.printErr ("Error: directory not found: " ++ w.abspath d)]
        exit := .ok 1
        announcedPort := none
        serverBoundPort := none } := by
    unfold serve_main
    rw [if_pos h]
  rw [hm]
  refine ⟨rfl, rfl, fun p => ⟨?_, ?_⟩⟩ <;> simp

/-- Witness for C4: a world in which no path is a directory. -/
theorem bad_dir_exits_before_bind_witness :
    (serve_main ⟨fun _ => false, fun s => s, ⟨fun _ => false, none⟩⟩
      "/nope" 8000 .interrupt).exit = .ok 1 ∧
    (serve_main ⟨fun _ => false, fun s => s, ⟨fun _ => false, none⟩⟩
      "/nope" 8000 .interrupt).events
      = [.printErr ("Error: directory not found: " ++ "/nope")] :=
  ⟨(bad_dir_exits_before_bind ⟨fun _ => false, fun s => s, ⟨fun _ => false, none⟩⟩
      "/nope" 8000 .interrupt rfl).1,
   (bad_dir_exits_before_bind ⟨fun _ => false, fun s => s, ⟨fun _ => false, none⟩⟩
      "/nope" 8000 .interrupt rfl).2.1⟩

/-- Claim C5 counterexample: for requested port 0 the probe bind succeeds,
so `find_free_port` returns the preferred value 0 itself, and `main`
announces port 0 in the serving URL while the HTTP server socket actually
binds the OS-assigned ephemeral port 49152: at the moment of the
announcement, the announced port is not the port that is bound and
listening (port 0 is not a bindable listening port at all). -/
theorem announced_port_zero_cex :
    (serve_main ⟨fun _ => true, fun s => s, ⟨fun _ => false, some 49152⟩⟩
      "." 0 .interrupt).announcedPort = some 0 ∧
    (serve_main ⟨fun _ => true, fun s => s, ⟨fun _ => false, some 49152⟩⟩
      "." 0 .interrupt).serverBoundPort = some 49152 ∧
    (0 : Nat) ≠ 49152 :=
  ⟨rfl, rfl, by decide⟩

/-- Claim C5 (amended to nonzero requested ports): whenever `main`
announces the serving URL, the requested port was not 0, and the OS hands
out only valid nonzero ephemeral ports, the announced port is exactly the
port the HTTP server socket bound — also when it differs from the
requested one — and it is a valid port. -/
theorem announced_port_is_bound (w : World) (d : String) (a : Nat) (se : ServeEnd) (pa : Nat)
    (ha : a ≠ 0)
    (hwf : ∀ q, w.os.ephemeralAvail = some q → 0 < q ∧ q < 65536)
    (h : (serve_main w d a se).announcedPort = some pa) :
    (serve_main w d a se).serverBoundPort = some pa ∧ 0 < pa ∧ pa < 65536 := by
  rcases serve_main_shape w d a se with ⟨h1, _⟩ | ⟨port, sport, evs, hf, hb, hann, hsrv, _⟩
  · rw [h1] at h
    exact Option.noConfusion h
  · rw [hann] at h
    injection h with hpa
    subst hpa
    rcases osBind_ok_inv w.os port sport hb with ⟨hle, hcase⟩
    rcases hcase with ⟨hz, _⟩ | ⟨hnz, hxeq, _⟩
    · exfalso
      rcases find_free_port_events_ok_inv w.os a port evs hf with ⟨hpe, _⟩ | hfb
      · exact ha (hpe ▸ hz)
      · rcases osBind_ok_inv w.os 0 port hfb with ⟨_, hc2⟩
        rcases hc2 with ⟨_, heph⟩ | ⟨hnz0, _, _⟩
        · have := (hwf port heph).1
          omega
        · exact hnz0 rfl
    · subst hxeq
      exact ⟨hsrv, by omega, by omega⟩

/-- Witness for the amended C5: requested port 8000, free, gets announced
and bound. -/
theorem announced_port_is_bound_witness :
    (serve_main ⟨fun _ => true, fun s => s, ⟨fun _ => false, some 49152⟩⟩
      "." 8000 .interrupt).serverBoundPort = some 8000 ∧
    (0 : Nat) < 8000 ∧ (8000 : Nat) < 65536 :=
  announced_port_is_bound
    ⟨fun _ => true, fun s => s, ⟨fun _ => false, some 49152⟩⟩ "." 8000 .interrupt 8000
    (by decide)
    (fun q hq => by injection hq with h; omega)
    rfl

/-- Claim C9: when startup succeeded and `serve_forever` is ended by a
KeyboardInterrupt, `main` prints the shutdown message, closes the
listening socket as its last action, and the process exits with status 0. -/
theorem interrupt_clean_shutdown (w : World) (d : String) (a : Nat)
    (port sport : Nat) (evs : List SockEvent)
    (hdir : w.isDir (w.abspath d) = true)
    (hf : find_free_port_events w.os a = (Except.ok port, evs))
    (hb : osBind w.os port = Except.ok sport) :
    (serve_main w d a .interrupt).exit = .ok 0 ∧
    MainEvent.printOut "\nShutting down..." ∈ (serve_main w d a .interrupt).events ∧
    (serve_main w d a .interrupt).events.getLast? = some MainEvent.serverClose := by
  have hm : serve_main w d a .interrupt =
      { events := evs.map sockEventToMain ++
          [.serverBind sport,
           .printOut ("Serving \x27" ++ w.abspath d ++ "\x27 at http://127.0.0.1:"
             ++ toString port),
           .printOut "Press Ctrl+C to stop."] ++
          [.printOut "\nShutting down...", .serverClose]
        exit := .ok 0
        announcedPort := some port
        serverBoundPort := some sport } := by
    unfold serve_main
    rw [if_neg (by simp [hdir])]
    simp only [hf, hb]
  rw [hm]
  refine ⟨rfl, ?_, ?_⟩
  · simp
  · rw [List.getLast?_append_cons]
    rfl

/-- Witness for C9: serving the current directory on free port 8000,
interrupted. -/
theorem interrupt_clean_shutdown_witness :
    (serve_main ⟨fun _ => true, fun s => s, ⟨fun _ => false, some 49152⟩⟩
      "." 8000 .interrupt).exit = .ok 0 ∧
    MainEvent.printOut "\nShutting down..."
      ∈ (serve_main ⟨fun _ => true, fun s => s, ⟨fun _ => false, some 49152⟩⟩
          "." 8000 .interrupt).events ∧
    (serve_main ⟨fun _ => true, fun s => s, ⟨fun _ => false, some 49152⟩⟩
      "." 8000 .interrupt).events.getLast? = some MainEvent.serverClose :=
  interrupt_clean_shutdown ⟨fun _ => true, fun s => s, ⟨fun _ => false, some 49152⟩⟩
    "." 8000 8000 8000 [.opened, .bind 8000, .closed] rfl rfl rfl

/-- Claim C10: once the serving phase has been entered (the server socket
was bound), the last event of every run of `main` is the closing of the
server socket — for a KeyboardInterrupt and for any other exception
escaping `serve_forever` alike, because the `finally` block runs
unconditionally before `main` returns or the exception propagates. -/
theorem server_close_unconditional (w : World) (d : String) (a : Nat) (se : ServeEnd) (p : Nat)
    (h : (serve_main w d a se).serverBoundPort = some p) :
    (serve_main w d a se).events.getLast? = some MainEvent.serverClose := by
  rcases serve_main_shape w d a se with ⟨_, h2⟩ | ⟨port, sport, evs, _, _, _, _, hlast⟩
  · rw [h2] at h
    exact Option.noConfusion h
  · exact hlast

/-- Witness for C10: a run ended by a non-KeyboardInterrupt exception still
closes the server socket last. -/
theorem server_close_unconditional_witness :
    (serve_main ⟨fun _ => true, fun s => s, ⟨fun _ => false, some 49152⟩⟩
      "." 8000 (.exc (.other "RuntimeError"))).events.getLast?
      = some MainEvent.serverClose :=
  server_close_unconditional
    ⟨fun _ => true, fun s => s, ⟨fun _ => false, some 49152⟩⟩
    "." 8000 (.exc (.other "RuntimeError")) 8000 rfl
